import Mathlib

/-!
# Verification of the whitedb heap-allocator header (`Db/dballoc.h`)

Shallow embedding of the boundary-tag codec macros, the allocator constants,
the area/segment header layout, and (modelled from the spec, since only the
prototypes appear in the header) the fixed-length freelist allocator.

`gint` is `typedef int gint`, a 32-bit two's-complement integer.  We embed a
gint as a Lean `Int`; the two's-complement bit operations of the macros are
expressed arithmetically (`i & 3` is `i % 4` with Lean's flooring `Int.emod`;
`i & ~3` is `i - i % 4`; OR-ing a state value `b < 4` into a word whose two
low bits are clear is `+ b`).  Where a C expression can overflow a 32-bit
signed int (`getusedobjectsize` adds 4 to the masked size) the addition is
performed modulo `2^32` with results reduced to `[-2^31, 2^31)`, the
two's-complement wraparound that the hardware performs.
-/

/-- Smallest value of a 32-bit `gint`. -/
def GINT_MIN : Int := -(2 ^ 31)

/-- Largest value of a 32-bit `gint`. -/
def GINT_MAX : Int := 2 ^ 31 - 1

/-- Reduce an integer to the 32-bit two's-complement range `[-2^31, 2^31)`:
the result of a possibly overflowing 32-bit signed addition. -/
def wrap32 (n : Int) : Int := (n + 2 ^ 31) % 2 ^ 32 - 2 ^ 31

/-- The masking expression `(i) & ~3` used throughout the macros: clear the
two low bits of the word.  In two's complement this subtracts `i mod 4`
(flooring modulus, also correct for negative words). -/
def maskLow2 (i : Int) : Int := i - i % 4

/-- `MIN_VARLENOBJ_SIZE`: `(4*(gint)(sizeof(gint)))` = 16 bytes, the minimal
size of a variable-length object. -/
def MIN_VARLENOBJ_SIZE : Int := 4 * 4

/-- `OBJSIZE_GRANULARITY`: `sizeof(gint)` = 4 bytes; object sizes are
multiples of this. -/
def OBJSIZE_GRANULARITY : Int := 4

/-- `isfreeobject(i)`: `(((i) & 3)==1)` — end bits `01`. -/
def isfreeobject (i : Int) : Bool := i % 4 == 1

/-- `isnormalusedobject(i)`: `(!((i) & 1))` — end bits `00` or `10`. -/
def isnormalusedobject (i : Int) : Bool := i % 2 == 0

/-- `isnormalusedobjectprevused(i)`: `(!((i) & 3))` — end bits `00`. -/
def isnormalusedobjectprevused (i : Int) : Bool := i % 4 == 0

/-- `isnormalusedobjectprevfree(i)`: `(((i) & 3)==2)` — end bits `10`. -/
def isnormalusedobjectprevfree (i : Int) : Bool := i % 4 == 2

/-- `isspecialusedobject(i)`: `(((i) & 3) == 3)` — end bits `11`. -/
def isspecialusedobject (i : Int) : Bool := i % 4 == 3

/-- `getfreeobjectsize(i)`: `((i) & ~3)` — mask off the two lowest bits. -/
def getfreeobjectsize (i : Int) : Int := maskLow2 i

/-- `getusedobjectsize(i)`:
`(((i) & ~3)<=MIN_VARLENOBJ_SIZE ? MIN_VARLENOBJ_SIZE : ((((i) & ~3)%8) ? (((i) & ~3)+4) : ((i) & ~3)))`.
The `%` of C is truncating, but in the branch where it is evaluated the
masked size exceeds `MIN_VARLENOBJ_SIZE > 0`, where it agrees with Lean's
`Int.emod` used here.  The `+4` is a 32-bit signed addition, embedded with
two's-complement wraparound. -/
def getusedobjectsize (i : Int) : Int :=
  if maskLow2 i ≤ MIN_VARLENOBJ_SIZE then MIN_VARLENOBJ_SIZE
  else if maskLow2 i % 8 ≠ 0 then wrap32 (maskLow2 i + 4)
  else maskLow2 i

/-- `getspecialusedobjectsize(i)`: `((i) & ~3)`. -/
def getspecialusedobjectsize (i : Int) : Int := maskLow2 i

/-- `makefreeobjectsize(i)`: `(((i) & ~3)|1)` — clear the two low bits, then
set them to `01`; the OR adds 1 to a word whose two low bits are clear. -/
def makefreeobjectsize (i : Int) : Int := maskLow2 i + 1

/-- `makeusedobjectsizeprevused(i)`: `((i) & ~3)` — low bits `00`. -/
def makeusedobjectsizeprevused (i : Int) : Int := maskLow2 i

/-- `makeusedobjectsizeprevfree(i)`: `(((i) & ~3)|2)` — low bits `10`. -/
def makeusedobjectsizeprevfree (i : Int) : Int := maskLow2 i + 2

/-- `makespecialusedobjectsize(i)`: `((i)|3)` — set both low bits without
masking first; OR-ing 3 into `i` replaces `i mod 4` by 3. -/
def makespecialusedobjectsize (i : Int) : Int := i - i % 4 + 3

/-- `SPECIALGINT1DV 1`: second gint of a special in-use designated-victim
area. -/
def SPECIALGINT1DV : Int := 1

/-- `SPECIALGINT1START 0`: second gint of a special in-use start-marker
area. -/
def SPECIALGINT1START : Int := 0

/-- `SPECIALGINT1END 0`: second gint of a special in-use end-marker area. -/
def SPECIALGINT1END : Int := 0

/-- The used-object true-size decode exactly as the specification words it:
the minimum variable-length object size when the masked size is below that
minimum; otherwise the masked size rounded up by one 4-byte word when it is
not a multiple of the 8-byte strict alignment; otherwise the masked size
unchanged.  Stated over unbounded integers (no 32-bit wraparound), to be
compared with `getusedobjectsize` embedded from the source. -/
def claimedUsedObjectSize (i : Int) : Int :=
  if maskLow2 i < MIN_VARLENOBJ_SIZE then MIN_VARLENOBJ_SIZE
  else if maskLow2 i % 8 ≠ 0 then maskLow2 i + 4
  else maskLow2 i

/-- `wrap32` is the identity on the 32-bit range. -/
theorem wrap32_eq_self (n : Int) (h1 : -(2 ^ 31) ≤ n) (h2 : n < 2 ^ 31) :
    wrap32 n = n := by
  unfold wrap32
  omega

/-- C1: for every tag word in 32-bit gint range whose masked size is not
`2^31 - 4` (the one masked value where the 4-byte round-up overflows the
32-bit gint and wraps to `-2^31`), `getusedobjectsize` returns exactly the
value described by the specification: the minimum object size when the
masked size is below it, the masked size rounded up by one 4-byte word when
not 8-aligned, and the masked size unchanged otherwise. -/
theorem getusedobjectsize_matches_claim (i : Int)
    (h1 : GINT_MIN ≤ i) (h2 : i ≤ GINT_MAX) (h3 : maskLow2 i ≠ 2 ^ 31 - 4) :
    getusedobjectsize i = claimedUsedObjectSize i := by
  unfold GINT_MIN at h1
  unfold GINT_MAX at h2
  unfold maskLow2 at h3
  unfold getusedobjectsize claimedUsedObjectSize wrap32 maskLow2 MIN_VARLENOBJ_SIZE
  split_ifs <;> omega

/-- Witness for `getusedobjectsize_matches_claim` at the tag word 20. -/
theorem getusedobjectsize_matches_claim_witness :
    GINT_MIN ≤ (20 : Int) ∧ (20 : Int) ≤ GINT_MAX ∧
    maskLow2 20 ≠ 2 ^ 31 - 4 ∧ getusedobjectsize 20 = claimedUsedObjectSize 20 :=
  ⟨by decide, by decide, by decide,
    getusedobjectsize_matches_claim 20 (by decide) (by decide) (by decide)⟩

/-- C1 counterexample: at the tag word `2147483644` (masked size
`2^31 - 4`, which is not 8-aligned) the code's 32-bit round-up wraps to
`-2^31`, while the claim's "masked size rounded up by one word" is `2^31`;
the decode does not return the claimed value. -/
theorem getusedobjectsize_overflow_counterexample :
    maskLow2 2147483644 = 2147483644 ∧ (2147483644 : Int) % 8 ≠ 0 ∧
    getusedobjectsize 2147483644 = -2147483648 ∧
    claimedUsedObjectSize 2147483644 = 2147483648 ∧
    getusedobjectsize 2147483644 ≠ claimedUsedObjectSize 2147483644 := by
  decide

/-- C2: the four boundary-tag classifiers test the two low bits (the residue
mod 4) for `00`, `10`, `01` and `11` respectively, and for every gint word
exactly one of the four holds. -/
theorem tag_state_bits_partition (i : Int) :
    (isnormalusedobjectprevused i = true ↔ i % 4 = 0) ∧
    (isnormalusedobjectprevfree i = true ↔ i % 4 = 2) ∧
    (isfreeobject i = true ↔ i % 4 = 1) ∧
    (isspecialusedobject i = true ↔ i % 4 = 3) ∧
    (isnormalusedobjectprevused i).toNat + (isnormalusedobjectprevfree i).toNat
      + (isfreeobject i).toNat + (isspecialusedobject i).toNat = 1 := by
  have h : i % 4 = 0 ∨ i % 4 = 1 ∨ i % 4 = 2 ∨ i % 4 = 3 := by omega
  rcases h with h | h | h | h <;>
    simp [isnormalusedobjectprevused, isnormalusedobjectprevfree, isfreeobject,
      isspecialusedobject, h]

/-- C3: each tag encoder produces the size with its two low bits cleared
OR-ed with its state's two low bits — the encoded word has the state as its
residue mod 4 and the same masked high part as the input — and for every
size that is a multiple of `OBJSIZE_GRANULARITY` (4 bytes), masking the two
low bits off the encoded word recovers the size exactly. -/
theorem make_object_size_encodes (s : Int) :
    makefreeobjectsize s % 4 = 1 ∧ maskLow2 (makefreeobjectsize s) = maskLow2 s ∧
    makeusedobjectsizeprevused s % 4 = 0 ∧
    maskLow2 (makeusedobjectsizeprevused s) = maskLow2 s ∧
    makeusedobjectsizeprevfree s % 4 = 2 ∧
    maskLow2 (makeusedobjectsizeprevfree s) = maskLow2 s ∧
    makespecialusedobjectsize s % 4 = 3 ∧
    maskLow2 (makespecialusedobjectsize s) = maskLow2 s ∧
    maskLow2 (makefreeobjectsize (OBJSIZE_GRANULARITY * s)) = OBJSIZE_GRANULARITY * s ∧
    maskLow2 (makeusedobjectsizeprevused (OBJSIZE_GRANULARITY * s)) = OBJSIZE_GRANULARITY * s ∧
    maskLow2 (makeusedobjectsizeprevfree (OBJSIZE_GRANULARITY * s)) = OBJSIZE_GRANULARITY * s ∧
    maskLow2 (makespecialusedobjectsize (OBJSIZE_GRANULARITY * s)) = OBJSIZE_GRANULARITY * s := by
  unfold makefreeobjectsize makeusedobjectsizeprevused makeusedobjectsizeprevfree
    makespecialusedobjectsize maskLow2 OBJSIZE_GRANULARITY
  omega

/-- C4: a designated victim's first gint, built by `makespecialusedobjectsize`,
carries tag bits `11` (it satisfies `isspecialusedobject`), its second gint
`SPECIALGINT1DV` equals 1, and the start/end markers' second gints are 0, so
the DV is distinguishable from the markers by the second gint alone. -/
theorem dv_second_gint_distinguishes (sz : Int) :
    isspecialusedobject (makespecialusedobjectsize sz) = true ∧
    SPECIALGINT1DV = 1 ∧ SPECIALGINT1START = 0 ∧ SPECIALGINT1END = 0 ∧
    SPECIALGINT1DV ≠ SPECIALGINT1START ∧ SPECIALGINT1DV ≠ SPECIALGINT1END := by
  refine ⟨?_, rfl, rfl, rfl, by decide, by decide⟩
  simp only [isspecialusedobject, makespecialusedobjectsize, beq_iff_eq]
  omega

/-- C5 counterexample: the header defines `SPECIALGINT1START` and
`SPECIALGINT1END` as 0 and 0, not 1 and 2 as the claim states. -/
theorem marker_second_gint_counterexample :
    SPECIALGINT1START = 0 ∧ SPECIALGINT1END = 0 ∧
    ¬ (SPECIALGINT1START = 1 ∧ SPECIALGINT1END = 2) := by decide

/-- C5 (amended): the second word of every subarea start marker is 0 and the
second word of every subarea end marker is also 0; the two markers share the
same second gint. -/
theorem marker_second_gint_zero :
    SPECIALGINT1START = 0 ∧ SPECIALGINT1END = 0 ∧
    SPECIALGINT1START = SPECIALGINT1END := by decide

/-- C9: for every gint in 32-bit range whose masked size is not `2^31 - 4`
(where the 4-byte round-up overflows and wraps negative), the decoded true
size is at least `MIN_VARLENOBJ_SIZE` and divisible by 8, even for
unaligned, undersized or negative stored sizes. -/
theorem getusedobjectsize_min_aligned (i : Int)
    (h1 : GINT_MIN ≤ i) (h2 : i ≤ GINT_MAX) (h3 : maskLow2 i ≠ 2 ^ 31 - 4) :
    MIN_VARLENOBJ_SIZE ≤ getusedobjectsize i ∧ (8 : Int) ∣ getusedobjectsize i := by
  unfold GINT_MIN at h1
  unfold GINT_MAX at h2
  unfold maskLow2 at h3
  unfold getusedobjectsize wrap32 maskLow2 MIN_VARLENOBJ_SIZE
  split_ifs <;> omega

/-- Witness for `getusedobjectsize_min_aligned` at the tag word -7. -/
theorem getusedobjectsize_min_aligned_witness :
    GINT_MIN ≤ (-7 : Int) ∧ (-7 : Int) ≤ GINT_MAX ∧
    maskLow2 (-7) ≠ 2 ^ 31 - 4 ∧
    MIN_VARLENOBJ_SIZE ≤ getusedobjectsize (-7) ∧ (8 : Int) ∣ getusedobjectsize (-7) :=
  ⟨by decide, by decide, by decide,
    getusedobjectsize_min_aligned (-7) (by decide) (by decide) (by decide)⟩

/-- C9 counterexample: at the tag word `2147483645` the masked size is
`2^31 - 4`, the round-up wraps to `-2^31`, and the decoded size is below
`MIN_VARLENOBJ_SIZE`. -/
theorem getusedobjectsize_min_counterexample :
    getusedobjectsize 2147483645 = -2147483648 ∧
    ¬ MIN_VARLENOBJ_SIZE ≤ getusedobjectsize 2147483645 := by decide

/-- C10: the word produced by each of the four tag encoders satisfies
exactly its own classifier predicate and none of the other three. -/
theorem encoded_words_classified (s : Int) :
    isfreeobject (makefreeobjectsize s) = true ∧
    isnormalusedobjectprevused (makefreeobjectsize s) = false ∧
    isnormalusedobjectprevfree (makefreeobjectsize s) = false ∧
    isspecialusedobject (makefreeobjectsize s) = false ∧
    isnormalusedobjectprevused (makeusedobjectsizeprevused s) = true ∧
    isfreeobject (makeusedobjectsizeprevused s) = false ∧
    isnormalusedobjectprevfree (makeusedobjectsizeprevused s) = false ∧
    isspecialusedobject (makeusedobjectsizeprevused s) = false ∧
    isnormalusedobjectprevfree (makeusedobjectsizeprevfree s) = true ∧
    isnormalusedobjectprevused (makeusedobjectsizeprevfree s) = false ∧
    isfreeobject (makeusedobjectsizeprevfree s) = false ∧
    isspecialusedobject (makeusedobjectsizeprevfree s) = false ∧
    isspecialusedobject (makespecialusedobjectsize s) = true ∧
    isnormalusedobjectprevused (makespecialusedobjectsize s) = false ∧
    isnormalusedobjectprevfree (makespecialusedobjectsize s) = false ∧
    isfreeobject (makespecialusedobjectsize s) = false := by
  simp only [isfreeobject, isnormalusedobjectprevused, isnormalusedobjectprevfree,
    isspecialusedobject, makefreeobjectsize, makeusedobjectsizeprevused,
    makeusedobjectsizeprevfree, makespecialusedobjectsize, maskLow2,
    beq_iff_eq, beq_eq_false_iff_ne, ne_eq]
  omega

/-- `SUBAREA_ARRAY_SIZE 64`: number of possible subareas in each area. -/
def SUBAREA_ARRAY_SIZE : Nat := 64

/-- `EXACTBUCKETS_NR 256`: free-object buckets with exact length. -/
def EXACTBUCKETS_NR : Nat := 256

/-- `VARBUCKETS_NR 32`: free-object buckets with varying length. -/
def VARBUCKETS_NR : Nat := 32

/-- `CACHEBUCKETS_NR 2`: buckets used as special caches. -/
def CACHEBUCKETS_NR : Nat := 2

/-- `DVBUCKET EXACTBUCKETS_NR+VARBUCKETS_NR`: cache bucket holding the
designated-victim offset. -/
def DVBUCKET : Nat := EXACTBUCKETS_NR + VARBUCKETS_NR

/-- `DVSIZEBUCKET EXACTBUCKETS_NR+VARBUCKETS_NR+1`: cache bucket holding the
designated victim's byte size. -/
def DVSIZEBUCKET : Nat := EXACTBUCKETS_NR + VARBUCKETS_NR + 1

/-- Length of the `freebuckets` array of `db_area_header`, transcribing the
C declaration `gint freebuckets[EXACTBUCKETS_NR+VARBUCKETS_NR+CACHEBUCKETS_NR]`. -/
def FREEBUCKETS_LEN : Nat := EXACTBUCKETS_NR + VARBUCKETS_NR + CACHEBUCKETS_NR

/-- `db_subarea_header`: one single memory-subarea header. -/
structure db_subarea_header where
  size : Int
  offset : Int
  alignedsize : Int
  alignedoffset : Int

/-- `db_area_header`: one single memory-area header, with the fixed-size
subarea table and the freebucket array indexed by their declared lengths. -/
structure db_area_header where
  fixedlength : Int
  objlength : Int
  freelist : Int
  last_subarea_index : Int
  subarea_array : Fin SUBAREA_ARRAY_SIZE → db_subarea_header
  freebuckets : Fin FREEBUCKETS_LEN → Int

set_option maxRecDepth 8192 in
/-- C7: every area header carries a subarea table of exactly 64 slots plus
the last-used index, and a freebuckets array of exactly 256 + 32 + 2 = 290
slots whose designated-victim cache slots `DVBUCKET = 288` and
`DVSIZEBUCKET = 289` are the last two entries and are distinct from every
exact bucket (0..255) and every variable bucket (256..287). -/
theorem area_header_bucket_layout :
    SUBAREA_ARRAY_SIZE = 64 ∧
    FREEBUCKETS_LEN = EXACTBUCKETS_NR + VARBUCKETS_NR + CACHEBUCKETS_NR ∧
    FREEBUCKETS_LEN = 290 ∧
    DVBUCKET = 288 ∧ DVSIZEBUCKET = 289 ∧
    DVBUCKET = FREEBUCKETS_LEN - 2 ∧ DVSIZEBUCKET = FREEBUCKETS_LEN - 1 ∧
    ((List.range EXACTBUCKETS_NR).all fun k =>
      decide (k ≠ DVBUCKET) && decide (k ≠ DVSIZEBUCKET)) = true ∧
    ((List.range VARBUCKETS_NR).all fun j =>
      decide (EXACTBUCKETS_NR + j ≠ DVBUCKET) &&
      decide (EXACTBUCKETS_NR + j ≠ DVSIZEBUCKET)) = true := by
  decide

/-- The fields of `db_memsegment_header`, one constructor per field, listed
for recording the declaration order of the C struct. -/
inductive SegmentHeaderField where
  | mark | version | size | free | initialadr | key | parent
  | datarec_area_header | longstr_area_header | listcell_area_header
  | shortstr_area_header | word_area_header | doubleword_area_header
  | strhash_area_header | index_control_area_header | tnode_area_header
  | indexhdr_area_header | logging | locks
  deriving DecidableEq

/-- Declaration order of the fields of `struct _db_memsegment_header`,
transcribed from the source. -/
def db_memsegment_header_fields : List SegmentHeaderField :=
  [.mark, .version, .size, .free, .initialadr, .key, .parent,
   .datarec_area_header, .longstr_area_header, .listcell_area_header,
   .shortstr_area_header, .word_area_header, .doubleword_area_header,
   .strhash_area_header, .index_control_area_header, .tnode_area_header,
   .indexhdr_area_header, .logging, .locks]

/-- C8: the segment header lays out its fields in exactly the claimed order:
magic mark, format version, total size, free cursor, the creator-address,
key (and parent) fields, one area header per object category in the fixed
order data-records, long-strings, list-cells, short-strings, words,
double-words, then the hash block, the index control blocks, the logging
block, and the lock slot last. -/
theorem memsegment_header_field_order :
    db_memsegment_header_fields =
      [SegmentHeaderField.mark, SegmentHeaderField.version,
       SegmentHeaderField.size, SegmentHeaderField.free] ++
      [SegmentHeaderField.initialadr, SegmentHeaderField.key,
       SegmentHeaderField.parent] ++
      [SegmentHeaderField.datarec_area_header, SegmentHeaderField.longstr_area_header,
       SegmentHeaderField.listcell_area_header, SegmentHeaderField.shortstr_area_header,
       SegmentHeaderField.word_area_header, SegmentHeaderField.doubleword_area_header] ++
      [SegmentHeaderField.strhash_area_header] ++
      [SegmentHeaderField.index_control_area_header, SegmentHeaderField.tnode_area_header,
       SegmentHeaderField.indexhdr_area_header] ++
      [SegmentHeaderField.logging] ++
      [SegmentHeaderField.locks] ∧
    db_memsegment_header_fields.getLast? = some SegmentHeaderField.locks := by
  decide

/-- Modelled from the spec: the state a fixed-length area operation touches.
`wg_alloc_fixlen_object` and `wg_free_fixlen_object` are declared in the
header but implemented in `dballoc.c`, which is not part of the sources, so
the fixed-length allocator is modelled from the specification: the area's
`freelist` head offset (0 when no free object is available) and `objlength`
from `db_area_header`, the segment memory as a map from offsets to gints
(each free cell's only content is the offset of the next free cell), and the
placement the next `create_subarea` call would return, abstracted as a base
offset `growBase` and a cell count `growCells` (0 when subarea creation
would fail: segment exhausted or subarea table full). -/
structure FixlenArea where
  freelist : Int
  objlength : Int
  mem : Int → Int
  growBase : Int
  growCells : Nat

/-- Modelled from the spec: formatting a freshly created subarea region "as
one long freelist chain of `objlength`-sized cells"; each cell stores the
offset of the next cell and the last cell stores the terminator 0. -/
def formatChain (objlen : Int) : (Int → Int) → Int → Nat → (Int → Int)
  | mem, _, 0 => mem
  | mem, base, 1 => Function.update mem base 0
  | mem, base, k + 2 =>
      formatChain objlen (Function.update mem base (base + objlen)) (base + objlen) (k + 1)

/-- Modelled from the spec: `wg_alloc_fixlen_object`, whose body is not in
the sources.  It pops the head of the area's freelist; if the freelist is
empty it creates a new subarea, formats it as a freelist chain, sets
`freelist` to the chain's head and only then serves the request; it fails
(None) when the freelist is empty and no subarea can be created. -/
def wg_alloc_fixlen_object (a : FixlenArea) : Option (Int × FixlenArea) :=
  if a.freelist ≠ 0 then
    some (a.freelist, { a with freelist := a.mem a.freelist })
  else if a.growCells = 0 then
    none
  else
    let mem2 := formatChain a.objlength a.mem a.growBase a.growCells
    some (a.growBase,
      { a with mem := mem2, freelist := mem2 a.growBase, growCells := 0 })

/-- Modelled from the spec: `wg_free_fixlen_object`, whose body is not in
the sources.  It pushes the cell back onto the head of the freelist with no
coalescing: the cell's first gint becomes the old head and the head becomes
the cell's offset. -/
def wg_free_fixlen_object (a : FixlenArea) (o : Int) : FixlenArea :=
  { a with mem := Function.update a.mem o a.freelist, freelist := o }

/-- The freelist as a list of cell offsets, followed from the head through
each cell's first gint until the terminator 0, cut off by a fuel bound. -/
def freelistChain (mem : Int → Int) : Int → Nat → List Int
  | _, 0 => []
  | h, fuel + 1 => if h = 0 then [] else h :: freelistChain mem (mem h) fuel

/-- C6 (amended): when the allocation is served from a nonempty freelist (no
subarea growth), `wg_alloc_fixlen_object` followed immediately by
`wg_free_fixlen_object` on the returned offset restores the area exactly:
the freelist head, the chain (hence its length), and the whole state are as
before the pair of calls; the free is a pure push onto the freelist head
with no coalescing. -/
theorem wg_alloc_free_fixlen_roundtrip (a a' : FixlenArea) (o : Int)
    (hne : a.freelist ≠ 0) (halloc : wg_alloc_fixlen_object a = some (o, a')) :
    wg_free_fixlen_object a' o = a ∧
    (wg_free_fixlen_object a' o).freelist = a.freelist ∧
    ∀ fuel, freelistChain (wg_free_fixlen_object a' o).mem
        (wg_free_fixlen_object a' o).freelist fuel
      = freelistChain a.mem a.freelist fuel := by
  unfold wg_alloc_fixlen_object at halloc
  rw [if_pos hne] at halloc
  simp only [Option.some.injEq, Prod.mk.injEq] at halloc
  obtain ⟨rfl, rfl⟩ := halloc
  have h1 : wg_free_fixlen_object { a with freelist := a.mem a.freelist } a.freelist = a := by
    obtain ⟨fl, ol, mem, gb, gc⟩ := a
    simp [wg_free_fixlen_object, Function.update_eq_self]
  exact ⟨h1, by rw [h1], fun fuel => by rw [h1]⟩

/-- A fixed-length area with one free cell at offset 16 and no growth room. -/
def fixB0 : FixlenArea := ⟨16, 8, fun _ => 0, 0, 0⟩

/-- The state of `fixB0` after its single free cell has been allocated. -/
def fixB1 : FixlenArea := ⟨0, 8, fun _ => 0, 0, 0⟩

/-- Witness for `wg_alloc_free_fixlen_roundtrip`: allocating the cell at
offset 16 from `fixB0` and freeing it restores `fixB0`. -/
theorem wg_alloc_free_fixlen_roundtrip_witness :
    fixB0.freelist ≠ 0 ∧ wg_alloc_fixlen_object fixB0 = some (16, fixB1) ∧
    wg_free_fixlen_object fixB1 16 = fixB0 :=
  ⟨by decide, by rfl,
    (wg_alloc_free_fixlen_roundtrip fixB0 fixB1 16 (by decide) (by rfl)).1⟩

/-- A fixed-length area with an empty freelist whose next subarea creation
formats two 8-byte cells at offsets 64 and 72. -/
def fixA0 : FixlenArea := ⟨0, 8, fun _ => 0, 64, 2⟩

/-- C6 counterexample: on an area with an empty freelist the allocation
succeeds by creating and formatting a new subarea, so the allocate/free pair
does not restore the freelist: the head goes from 0 to 64 and the freelist
length from 0 to 2. -/
theorem fixlen_roundtrip_growth_counterexample :
    fixA0.freelist = 0 ∧
    (freelistChain fixA0.mem fixA0.freelist 10).length = 0 ∧
    ((wg_alloc_fixlen_object fixA0).map fun p =>
        ((wg_free_fixlen_object p.2 p.1).freelist,
         (freelistChain (wg_free_fixlen_object p.2 p.1).mem
            (wg_free_fixlen_object p.2 p.1).freelist 10).length))
      = some (64, 2) := by
  decide
